import Mathlib

/-!
Shallow embedding of the `lamp` firmware (`src/main.rs`): a four-relay
controller driven by an HTTP control surface, four debounced buttons, and a
WiFi reconnect loop with capped quadratic backoff.  Relay levels are modelled
as a `List Bool` (true = high/energized); the mutex-guarded accesses of the
Rust code become pure state transformers, with lock-acquisition success passed
in explicitly, and the `unwrap` calls on indexed accesses become `Option`
results where `none` marks the panic branch.
-/

namespace Lamp

/-- Number of relays in the bank (gpio13, gpio12, gpio14, gpio27). -/
def RELAY_COUNT : Nat := 4

/-- Decimal digit value of a character, `none` for a non-digit
(models Rust digit handling inside `str::parse` for unsigned integers). -/
def digitVal (c : Char) : Option Nat :=
  if c.isDigit then some (c.toNat - 48) else none

/-- Accumulate the value of a decimal digit string; `none` on any non-digit. -/
def decDigitsAux (acc : Nat) : List Char → Option Nat
  | [] => some acc
  | c :: cs =>
    match digitVal c with
    | some d => decDigitsAux (acc * 10 + d) cs
    | none => none

/-- Drop one optional leading plus sign, as Rust unsigned parsing allows. -/
def dropPlusSign : List Char → List Char
  | '+' :: rest => rest
  | cs => cs

/-- Numeric value of a string that is a valid unsigned decimal integer
(optional leading `+`, then one or more digits); `none` otherwise.
This is the unbounded-value semantics shared by all Rust unsigned parses. -/
def decimalValue (s : String) : Option Nat :=
  match dropPlusSign s.toList with
  | [] => none
  | cs => decDigitsAux 0 cs

/-- Model of Rust `str::parse::<u8>`: valid unsigned decimal syntax with a
value that fits in 8 bits; any larger value is an overflow parse error. -/
def parseU8 (s : String) : Option Nat :=
  match decimalValue s with
  | some n => if n ≤ 255 then some n else none
  | none => none

/-- Model of Rust `str::parse::<bool>`: exactly "true" or "false". -/
def parseBool (s : String) : Option Bool :=
  if s = "true" then some true else if s = "false" then some false else none

/-- First query pair with the given key, mirroring
`u.query_pairs().find(|(k, _v)| k == key)`. -/
def findQuery (pairs : List (String × String)) (key : String) : Option String :=
  (pairs.find? (fun p => p.1 = key)).map (fun p => p.2)

/-- The `relayId` value used by the POST handler: absent means 0, present
means the `u8` parse result (`none` = parse error propagated as `Err`). -/
def parsedRelayId (pairs : List (String × String)) : Option Nat :=
  match findQuery pairs "relayId" with
  | none => some 0
  | some s => parseU8 s

/-- The `isActive` value used by the POST handler: absent means `false`,
present means the `bool` parse result (`none` = parse error). -/
def parsedIsActive (pairs : List (String × String)) : Option Bool :=
  match findQuery pairs "isActive" with
  | none => some false
  | some s => parseBool s

/-- Outcome of an HTTP handler invocation.  `ok` is `into_ok_response` with
nothing written (200, empty body); `badRequest` is `into_response(code, msg)`;
`err` is a `?`-propagated parse failure; `panicked` is an `unwrap` panic. -/
inductive Response : Type where
  | ok : Response
  | badRequest (code : Nat) (msg : String) : Response
  | err : Response
  | panicked : Response
deriving DecidableEq, Repr

/-- `relay_guard.get_mut(id).unwrap().set_high()/set_low()`: write level `v`
to relay `id`; `none` models the `unwrap` panic on an out-of-bounds index. -/
def bankSetState (levels : List Bool) (id : Nat) (v : Bool) : Option (List Bool) :=
  if id < levels.length then some (levels.set id v) else none

/-- `relay_guard.get_mut(id).unwrap().toggle()`: read relay `id` and write
its complement; `none` models the `unwrap` panic. -/
def bankToggle (levels : List Bool) (id : Nat) : Option (List Bool) :=
  match levels[id]? with
  | some v => some (levels.set id (!v))
  | none => none

/-- The POST `/relay/toggle` handler body: parse `relayId` (default 0),
reject ids above 3 with a 400 before `isActive` is even looked at, parse
`isActive` (default false), then under the lock set the relay to the parsed
level; a failed lock acquisition skips the mutation but still answers 200.
Returns the response together with the relay levels after the request. -/
def toggleHandler (lockOk : Bool) (pairs : List (String × String))
    (levels : List Bool) : Response × List Bool :=
  match parsedRelayId pairs with
  | none => (Response.err, levels)
  | some relayId =>
    if relayId > 3 then
      (Response.badRequest 400 "Relay ID is out of range", levels)
    else
      match parsedIsActive pairs with
      | none => (Response.err, levels)
      | some isActive =>
        if lockOk then
          match bankSetState levels relayId isActive with
          | some levels2 => (Response.ok, levels2)
          | none => (Response.panicked, levels)
        else
          (Response.ok, levels)

/-- The GET `/` handler's relay data: the four `(name, isActive, id)` entries
read under one lock acquisition via `relay_guard.get(i).unwrap().1.is_high()`;
`none` models an `unwrap` panic on a bank of fewer than four relays. -/
def renderSnapshot (levels : List Bool) :
    Option (List (String × Bool × Nat)) :=
  match levels[0]?, levels[1]?, levels[2]?, levels[3]? with
  | some a, some b, some c, some d =>
    some [("lampu kamar", a, 0), ("lampu keluarga", b, 1),
          ("lampu ruang tamu", c, 2), ("lampu dapur", d, 3)]
  | _, _, _, _ => none

/-- One button's edge latch, straight from the main loop's condition
`btn.is_low() && !is_low.load(..)` and the latch store `is_low.store(btn.is_low())`:
given the latched previous level and the sampled level (true = low = active),
return (action emitted this tick, new latch value). -/
def debounceStep (prevLow sampleLow : Bool) : Bool × Bool :=
  (sampleLow && !prevLow, sampleLow)

/-- Actions emitted over a sequence of tick samples, threading the latch. -/
def debounceActions (prevLow : Bool) : List Bool → List Bool
  | [] => []
  | s :: rest =>
    (debounceStep prevLow s).1 :: debounceActions (debounceStep prevLow s).2 rest

/-- One button's contribution to a main-loop tick: if its edge latch fires,
toggle relay `id` (when the lock is acquired; a failed lock skips it). -/
def buttonStep (sampleLow prevLow lockOk : Bool) (id : Nat)
    (levels : List Bool) : Option (List Bool) :=
  if (debounceStep prevLow sampleLow).1 then
    if lockOk then bankToggle levels id else some levels
  else
    some levels

/-- The four button checks of one main-loop tick, in program order
(buttons 0..3 drive relays 0..3); `none` is an `unwrap` panic. -/
def tickButtons (sample prev lockOk : Nat → Bool) (levels : List Bool) :
    Option (List Bool) :=
  (buttonStep (sample 0) (prev 0) (lockOk 0) 0 levels).bind (fun l0 =>
  (buttonStep (sample 1) (prev 1) (lockOk 1) 1 l0).bind (fun l1 =>
  (buttonStep (sample 2) (prev 2) (lockOk 2) 2 l1).bind (fun l2 =>
  buttonStep (sample 3) (prev 3) (lockOk 3) 3 l2)))

/-- Capped quadratic backoff: `300 * i * i` milliseconds, capped at 3000. -/
def backoffDelay (i : Nat) : Nat :=
  let d := 300 * i * i
  if d > 3000 then 3000 else d

/-- The nested reconnect loop, simulated against a list of connect outcomes
(`true` = `connect_wifi` succeeded).  Mirrors the source exactly: the counter
is incremented at the top of each iteration, before the connect attempt, and
on failure the loop waits `backoffDelay` of the already-incremented counter.
Returns the list of delays waited, in order. -/
def reconnectSim (i : Nat) : List Bool → List Nat
  | [] => []
  | ok :: rest =>
    if ok then [] else backoffDelay (i + 1) :: reconnectSim (i + 1) rest

/-- Atomic operations on the shared relay bank, for interleaving arguments:
each holds the single bank-wide lock for its whole duration, as both handlers
and the button loop do in the source. -/
inductive Op : Type where
  | toggleOp (id : Nat) : Op
  | renderOp : Op
deriving DecidableEq, Repr

/-- Run a schedule of atomic bank operations from a starting level vector,
collecting every render's output; `none` if a toggle hits its panic branch. -/
def runOps : List Op → List Bool →
    Option (List (Option (List (String × Bool × Nat))))
  | [], _ => some []
  | Op.renderOp :: rest, l => (runOps rest l).map (fun outs => renderSnapshot l :: outs)
  | Op.toggleOp id :: rest, l => (bankToggle l id).bind (fun l2 => runOps rest l2)

end Lamp

/-! ## Theorems -/

namespace Lamp

/-- When the `relayId` key is present, the id the handler works with is the
`u8` parse of its value. -/
theorem parsedRelayId_of_find (pairs : List (String × String)) (s : String)
    (hfind : findQuery pairs "relayId" = some s) :
    parsedRelayId pairs = parseU8 s := by
  simp [parsedRelayId, hfind]

/-- Any request whose parsed relay id is at least 4 gets the 400 response
with the out-of-range message and leaves every relay level unchanged. -/
theorem toggleHandler_out_of_range (lockOk : Bool)
    (pairs : List (String × String)) (levels : List Bool) (n : Nat)
    (hpid : parsedRelayId pairs = some n) (hge : 4 ≤ n) :
    toggleHandler lockOk pairs levels =
      (Response.badRequest 400 "Relay ID is out of range", levels) := by
  simp [toggleHandler, hpid, show n > 3 by omega]

/-- C1: a ToggleRelay request whose `relayId` parses (as `u8`) to a value at
least the relay count 4 is answered 400 with body "Relay ID is out of range"
and mutates no relay level, for every lock outcome and every query-pair list —
in particular whatever `isActive` holds, since the range check is reached
before `isActive` is parsed. -/
theorem c1_out_of_range (lockOk : Bool) (pairs : List (String × String))
    (levels : List Bool) (s : String) (n : Nat)
    (hfind : findQuery pairs "relayId" = some s)
    (hparse : parseU8 s = some n) (hge : 4 ≤ n) :
    toggleHandler lockOk pairs levels =
      (Response.badRequest 400 "Relay ID is out of range", levels) := by
  have hpid : parsedRelayId pairs = some n := by
    rw [parsedRelayId_of_find pairs s hfind, hparse]
  exact toggleHandler_out_of_range lockOk pairs levels n hpid hge

/-- C1 witness: `relayId=9` with an unparseable `isActive` still yields the
400 out-of-range response and an unchanged bank. -/
theorem c1_out_of_range_witness :
    toggleHandler true [("relayId", "9"), ("isActive", "zz")]
        [false, false, false, false] =
      (Response.badRequest 400 "Relay ID is out of range",
        [false, false, false, false]) :=
  c1_out_of_range true _ _ "9" 9 rfl (by decide) (by omega)

/-- C2 counterexample: five consecutive failed connect attempts do NOT wait
the claimed delays 300, 1200, 2700, 3000, 3000 ms — the counter is
incremented before the first attempt, so the first delay is already 1200. -/
theorem c2_backoff_counterexample :
    reconnectSim 1 (List.replicate 5 false) ≠ [300, 1200, 2700, 3000, 3000] := by
  decide

/-- C2 amended: the delays waited after the first five consecutive failed
reconnect attempts are 1200, 2700, 3000, 3000, 3000 ms; the delay after the
k-th failure (k counted from 0) is min(300 * (k+2)^2, 3000) ms, because `i`
starts at 1 and is incremented before each attempt. -/
theorem c2_backoff_amended :
    reconnectSim 1 (List.replicate 5 false) = [1200, 2700, 3000, 3000, 3000] ∧
    (∀ k : Nat, k < 5 → (reconnectSim 1 (List.replicate 5 false)).getD k 0 =
      min (300 * (k + 2) * (k + 2)) 3000) := by
  decide

/-- C2 witness: the delay after the first failed attempt is
min(300 * 2 * 2, 3000) = 1200 ms. -/
theorem c2_backoff_witness :
    (reconnectSim 1 (List.replicate 5 false)).getD 0 0 =
      min (300 * 2 * 2) 3000 :=
  c2_backoff_amended.2 0 (by omega)

/-- C3: when the lock acquisition fails during a ToggleRelay request with an
in-range id (and parseable `isActive`), the handler skips the mutation —
the levels are returned untouched — yet still answers 200 success. -/
theorem c3_lock_failure (pairs : List (String × String)) (levels : List Bool)
    (n : Nat) (b : Bool) (hid : parsedRelayId pairs = some n) (hn : n ≤ 3)
    (hb : parsedIsActive pairs = some b) :
    toggleHandler false pairs levels = (Response.ok, levels) := by
  simp [toggleHandler, hid, hb, show ¬ n > 3 by omega]

/-- C3 witness: `relayId=2&isActive=true` under a failed lock returns 200
with all four relays still off. -/
theorem c3_lock_failure_witness :
    toggleHandler false [("relayId", "2"), ("isActive", "true")]
        [false, false, false, false] =
      (Response.ok, [false, false, false, false]) :=
  c3_lock_failure _ _ 2 true (by decide) (by omega) (by decide)

/-- C4: for every in-range id and boolean v, the in-range ToggleRelay
mutation `bankSetState levels id v` produces a bank whose level at `id` reads
back as `v` (both directly and through the GET snapshot's `is_high` read),
and repeating the same set leaves the bank fixed (idempotence). -/
theorem c4_set_then_get (levels levels' : List Bool) (id : Nat) (v : Bool)
    (h4 : levels.length = 4) (hid : id < 4)
    (hset : bankSetState levels id v = some levels') :
    levels'[id]? = some v ∧
    bankSetState levels' id v = some levels' ∧
    (renderSnapshot levels').bind
      (fun snap => (snap[id]?).map (fun e => e.2.1)) = some v := by
  have hlen : id < levels.length := by omega
  have hset' : levels' = levels.set id v := by
    simp only [bankSetState, if_pos hlen, Option.some.injEq] at hset
    exact hset.symm
  subst hset'
  refine ⟨List.getElem?_set_self (by omega), ?_, ?_⟩
  · simp [bankSetState, List.length_set, hlen, List.set_set]
  · rcases levels with _ | ⟨a, _ | ⟨b, _ | ⟨c, _ | ⟨d, _ | ⟨e, t⟩⟩⟩⟩⟩ <;>
      simp_all
    interval_cases id <;> simp [renderSnapshot, List.set]

/-- C4 witness: setting relay 2 to true on an all-off bank reads back true
at index 2, and the set is idempotent there. -/
theorem c4_set_then_get_witness :
    (([false, false, false, false].set 2 true : List Bool))[2]? = some true ∧
    bankSetState [false, false, true, false] 2 true =
      some [false, false, true, false] :=
  ⟨(c4_set_then_get [false, false, false, false] [false, false, true, false]
      2 true (by decide) (by omega) (by decide)).1,
   (c4_set_then_get [false, false, false, false] [false, false, true, false]
      2 true (by decide) (by omega) (by decide)).2.1⟩

/-- A run of all-idle samples emits no action, whatever the initial latch. -/
theorem debounceActions_idle (prev : Bool) (n : Nat) :
    (debounceActions prev (List.replicate n false)).count true = 0 := by
  induction n generalizing prev with
  | zero => simp [debounceActions]
  | succ k ih =>
    simp [List.replicate_succ, debounceActions, debounceStep,
      List.count_cons, ih]

/-- Once the latch holds (button already seen low), further active samples
followed by idle samples emit no action. -/
theorem debounceActions_held (k n : Nat) :
    (debounceActions true
      (List.replicate k true ++ List.replicate n false)).count true = 0 := by
  induction k with
  | zero => simpa using debounceActions_idle true n
  | succ k ih =>
    simp only [List.replicate_succ, List.cons_append, debounceActions,
      debounceStep, List.count_cons] at *
    simpa using ih

/-- C5: the per-tick debounce step is an edge latch — the action output is
exactly `sampleLow && !prevLow` and the new latch is the sample — and a
sustained press-then-release cycle (m ≥ 1 active ticks then n idle ticks,
starting from a released latch) emits exactly one toggle action. -/
theorem c5_edge_latch (m n : Nat) (hm : 1 ≤ m) :
    (∀ prevLow sampleLow : Bool,
      debounceStep prevLow sampleLow = (sampleLow && !prevLow, sampleLow)) ∧
    (debounceActions false
      (List.replicate m true ++ List.replicate n false)).count true = 1 := by
  constructor
  · intro prevLow sampleLow; rfl
  · obtain ⟨m', rfl⟩ : ∃ m', m = m' + 1 := ⟨m - 1, by omega⟩
    simp only [List.replicate_succ, List.cons_append, debounceActions,
      debounceStep, List.count_cons]
    simpa using debounceActions_held m' n

/-- C5 witness: three active ticks then two idle ticks from a released latch
emit exactly one action. -/
theorem c5_edge_latch_witness :
    (debounceActions false
      (List.replicate 3 true ++ List.replicate 2 false)).count true = 1 :=
  (c5_edge_latch 3 2 (by omega)).2

/-- C6: ToggleRelay parameter handling — an absent `relayId` defaults to id 0
rather than erroring; a present but unparseable `relayId` fails the request
with a parse error; an absent `isActive` defaults to false; an unparseable
`isActive` (with an in-range id) fails with a parse error; and with an
in-range id and parseable parameters the response is 200 (empty body). -/
theorem c6_param_handling (lockOk : Bool) (pairs : List (String × String))
    (levels : List Bool) (s t : String) (n : Nat) (b : Bool) :
    (findQuery pairs "relayId" = none → parsedRelayId pairs = some 0) ∧
    (findQuery pairs "relayId" = some s → parseU8 s = none →
      toggleHandler lockOk pairs levels = (Response.err, levels)) ∧
    (findQuery pairs "isActive" = none → parsedIsActive pairs = some false) ∧
    (parsedRelayId pairs = some n → n ≤ 3 →
      findQuery pairs "isActive" = some t → parseBool t = none →
      toggleHandler lockOk pairs levels = (Response.err, levels)) ∧
    (parsedRelayId pairs = some n → n ≤ 3 → parsedIsActive pairs = some b →
      levels.length = 4 →
      (toggleHandler lockOk pairs levels).1 = Response.ok) := by
  refine ⟨?_, ?_, ?_, ?_, ?_⟩
  · intro h; simp [parsedRelayId, h]
  · intro hf hp
    have hpid : parsedRelayId pairs = none := by simp [parsedRelayId, hf, hp]
    simp [toggleHandler, hpid]
  · intro h; simp [parsedIsActive, h]
  · intro hid hn hf hp
    have hia : parsedIsActive pairs = none := by simp [parsedIsActive, hf, hp]
    simp [toggleHandler, hid, hia, show ¬ n > 3 by omega]
  · intro hid hn hb h4
    rcases lockOk with _ | _
    · simp [toggleHandler, hid, hb, show ¬ n > 3 by omega]
    · simp [toggleHandler, hid, hb, show ¬ n > 3 by omega,
        bankSetState, show n < levels.length by omega]

/-- C6 witness: `relayId=2&isActive=true` on a four-relay bank succeeds with
a 200 response. -/
theorem c6_param_handling_witness :
    (toggleHandler true [("relayId", "2"), ("isActive", "true")]
        [false, false, false, false]).1 = Response.ok :=
  (c6_param_handling true _ [false, false, false, false] "" "" 2 true).2.2.2.2
    (by decide) (by omega) (by decide) (by decide)

/-- C7: frame property of the two mutation paths — a ToggleRelay request
whose parsed id is k, and a button-k toggle, both leave the level of every
relay j ≠ k exactly as it was. -/
theorem c7_frame (levels levels' : List Bool) (pairs : List (String × String))
    (lockOk : Bool) (k j : Nat) (r : Response) (hjk : j ≠ k) :
    (toggleHandler lockOk pairs levels = (r, levels') →
      parsedRelayId pairs = some k → levels'[j]? = levels[j]?) ∧
    (bankToggle levels k = some levels' → levels'[j]? = levels[j]?) := by
  constructor
  · intro hrun hpid
    simp only [toggleHandler, hpid] at hrun
    by_cases hk : k > 3
    · rw [if_pos hk] at hrun
      injection hrun with h1 h2
      rw [← h2]
    · rw [if_neg hk] at hrun
      rcases hia : parsedIsActive pairs with _ | b <;> simp only [hia] at hrun
      · injection hrun with h1 h2; rw [← h2]
      · cases lockOk with
        | false =>
          simp only [Bool.false_eq_true, if_false] at hrun
          injection hrun with h1 h2; rw [← h2]
        | true =>
          simp only [if_true] at hrun
          rcases hset : bankSetState levels k b with _ | l2 <;>
            simp only [hset] at hrun
          · injection hrun with h1 h2; rw [← h2]
          · injection hrun with h1 h2
            rw [← h2]
            simp only [bankSetState] at hset
            split at hset
            · obtain rfl := (Option.some.injEq _ _).mp hset
              exact List.getElem?_set_ne (fun he => hjk he.symm)
            · cases hset
  · intro htog
    simp only [bankToggle] at htog
    rcases h : levels[k]? with _ | v
    · simp [h] at htog
    · simp only [h] at htog
      obtain rfl := (Option.some.injEq _ _).mp htog
      exact List.getElem?_set_ne (fun he => hjk he.symm)

/-- C7 witness: toggling relay 2 on an all-off bank leaves relay 0 as it was. -/
theorem c7_frame_witness :
    ([false, false, true, false] : List Bool)[0]? =
      ([false, false, false, false] : List Bool)[0]? :=
  (c7_frame [false, false, false, false] [false, false, true, false] [] true
      2 0 Response.ok (by omega)).2 (by decide)

/-- C8: under the single-lock atomicity the source gives both handlers (the
render takes the lock once around all four reads, the toggle once around its
read-modify-write), either interleaving of a render with a toggle of relay X
yields exactly the full pre-toggle snapshot or the full post-toggle snapshot —
never a mixed view, so relay X is never rendered in a state that neither
preceded nor followed the toggle. -/
theorem c8_no_torn_read (levels levels' : List Bool) (X : Nat)
    (h : bankToggle levels X = some levels') :
    runOps [Op.renderOp, Op.toggleOp X] levels = some [renderSnapshot levels] ∧
    runOps [Op.toggleOp X, Op.renderOp] levels = some [renderSnapshot levels'] := by
  constructor <;> simp [runOps, h]

/-- C8 witness: rendering after a toggle of relay 2 shows exactly the
post-toggle snapshot. -/
theorem c8_no_torn_read_witness :
    runOps [Op.toggleOp 2, Op.renderOp] [false, false, false, false] =
      some [renderSnapshot [false, false, true, false]] :=
  (c8_no_torn_read [false, false, false, false] [false, false, true, false]
      2 (by decide)).2

/-- C9: because `relayId` is parsed as `u8`, a query value that is a valid
unsigned integer greater than 255 makes the request fail with a parse error —
not the 400 out-of-range response — while values 4..255 do take the 400
out-of-range path; in both cases no relay level changes. -/
theorem c9_u8_overflow (lockOk : Bool) (pairs : List (String × String))
    (levels : List Bool) (s : String) (n : Nat)
    (hfind : findQuery pairs "relayId" = some s)
    (hval : decimalValue s = some n) :
    (255 < n → toggleHandler lockOk pairs levels = (Response.err, levels)) ∧
    (4 ≤ n → n ≤ 255 → toggleHandler lockOk pairs levels =
      (Response.badRequest 400 "Relay ID is out of range", levels)) := by
  constructor
  · intro hgt
    have hp : parseU8 s = none := by
      simp [parseU8, hval, show ¬ n ≤ 255 by omega]
    have hpid : parsedRelayId pairs = none := by
      rw [parsedRelayId_of_find pairs s hfind, hp]
    simp [toggleHandler, hpid]
  · intro hge hle
    have hp : parseU8 s = some n := by simp [parseU8, hval, hle]
    have hpid : parsedRelayId pairs = some n := by
      rw [parsedRelayId_of_find pairs s hfind, hp]
    exact toggleHandler_out_of_range lockOk pairs levels n hpid hge

/-- C9 witness: `relayId=300` (a valid unsigned integer above 255) yields the
parse-error outcome with the bank untouched. -/
theorem c9_u8_overflow_witness :
    toggleHandler true [("relayId", "300")] [false, false, false, false] =
      (Response.err, [false, false, false, false]) :=
  (c9_u8_overflow true [("relayId", "300")] [false, false, false, false]
      "300" 300 (by decide) (by decide)).1 (by omega)

/-- A single button check of the tick loop never panics on an in-range relay
id and preserves the bank's size. -/
theorem buttonStep_some (s p lk : Bool) (id : Nat) (levels : List Bool)
    (hid : id < levels.length) :
    ∃ l', buttonStep s p lk id levels = some l' ∧
      l'.length = levels.length := by
  unfold buttonStep
  split
  · split
    · obtain ⟨v, hv⟩ : ∃ v, levels[id]? = some v :=
        ⟨levels[id], (List.getElem?_eq_getElem hid)⟩
      exact ⟨levels.set id (!v), by simp [bankToggle, hv],
        by simp [List.length_set]⟩
    · exact ⟨levels, rfl, rfl⟩
  · exact ⟨levels, rfl, rfl⟩

/-- C10: on the four-relay bank no indexed access takes its panic branch —
the GET snapshot's four fixed reads succeed, the POST handler never reaches
the `unwrap` panic outcome (its `get_mut(relay_id)` is guarded by
`relay_id ≤ 3`), and the button loop's fixed accesses to indices 0..3 all
succeed whatever the samples, latches, and lock outcomes. -/
theorem c10_no_panic (levels : List Bool) (h4 : levels.length = 4) :
    (renderSnapshot levels).isSome = true ∧
    (∀ (lockOk : Bool) (pairs : List (String × String)),
      (toggleHandler lockOk pairs levels).1 ≠ Response.panicked) ∧
    (∀ sample prev lockOk : Nat → Bool,
      (tickButtons sample prev lockOk levels).isSome = true) := by
  refine ⟨?_, ?_, ?_⟩
  · rcases levels with _ | ⟨a, _ | ⟨b, _ | ⟨c, _ | ⟨d, _ | ⟨e, t⟩⟩⟩⟩⟩ <;>
      simp_all [renderSnapshot]
  · intro lockOk pairs
    unfold toggleHandler
    rcases hpid : parsedRelayId pairs with _ | n
    · simp
    · by_cases hn : n > 3
      · simp [hn]
      · simp only [if_neg hn]
        rcases hia : parsedIsActive pairs with _ | b
        · simp
        · cases lockOk with
          | false => simp
          | true =>
            have hbs : bankSetState levels n b = some (levels.set n b) := by
              simp [bankSetState, show n < levels.length by omega]
            simp [hbs]
  · intro sample prev lockOk
    obtain ⟨l0, h0, hl0⟩ :=
      buttonStep_some (sample 0) (prev 0) (lockOk 0) 0 levels (by omega)
    obtain ⟨l1, h1, hl1⟩ :=
      buttonStep_some (sample 1) (prev 1) (lockOk 1) 1 l0 (by omega)
    obtain ⟨l2, h2, hl2⟩ :=
      buttonStep_some (sample 2) (prev 2) (lockOk 2) 2 l1 (by omega)
    obtain ⟨l3, h3, hl3⟩ :=
      buttonStep_some (sample 3) (prev 3) (lockOk 3) 3 l2 (by omega)
    simp [tickButtons, h0, h1, h2, h3]

/-- C10 witness: on the concrete all-off four-relay bank the GET snapshot's
reads succeed. -/
theorem c10_no_panic_witness :
    ([false, false, false, false] : List Bool).length = 4 ∧
    (renderSnapshot [false, false, false, false]).isSome = true :=
  ⟨by decide, (c10_no_panic [false, false, false, false] (by decide)).1⟩

end Lamp
